import Mathlib

/-!
Verification development for the LANL 2019 clinic spectrogram-widget
repository (`spectrogram_widget.py` and
`ImageProcessing/TemplateMatching/Templates/saveTemplateImages.py`).

The Python code is shallowly embedded: numeric values are modelled as
rationals (`ℚ`), Python exceptions as an explicit `PyErr` value threaded
through `Except` / `× Except`-typed results, the widget object as a record
`SpectrogramWidget`, and the external numerical collaborators
(`Spectrogram.power`, `Gaussian`, `Spectrum`, `PeakFollower`,
`GaussianFitter`), which live outside this repository, as components of an
`Externals` record of function parameters.  Stateful methods return the final
widget state together with either the returned value or the exception that
escaped, so that partially-mutated states are preserved faithfully.
-/

/-- Python exception classes that the embedded code can raise.  All of
these derive from `Exception` in Python; asynchronous `BaseException`s
such as `KeyboardInterrupt` are outside the embedding. -/
inductive PyErr where
  | typeError
  | valueError
  | indexError
  | keyError
  | nameError
  | attributeError
  | fileNotFoundError
deriving DecidableEq, Repr

instance instDecidableEqExcept {ε α : Type} [DecidableEq ε] [DecidableEq α] :
    DecidableEq (Except ε α) := fun x y =>
  match x, y with
  | .ok a, .ok b =>
    if h : a = b then isTrue (by rw [h]) else isFalse (by simp [h])
  | .ok _, .error _ => isFalse (by simp)
  | .error _, .ok _ => isFalse (by simp)
  | .error a, .error b =>
    if h : a = b then isTrue (by rw [h]) else isFalse (by simp [h])

/-- Is `p` a (contiguous) leading segment of `l`?  Bool-valued helper for
the substring test below. -/
def leadsList {α : Type} [DecidableEq α] : List α → List α → Bool
  | [], _ => true
  | _ :: _, [] => false
  | a :: as, b :: bs => a = b && leadsList as bs

/-- Does `text` contain `pat` as a contiguous sublist? -/
def hasSubList {α : Type} [DecidableEq α] : List α → List α → Bool
  | [], pat => leadsList pat []
  | t@(_ :: ts), pat => leadsList pat t || hasSubList ts pat

/-- Python's substring operator `pat in s` on strings. -/
def strContains (s pat : String) : Bool :=
  hasSubList s.data pat.data

/-- Python sequence indexing `xs[i]` with an `int` index: a negative index
counts from the end; out of range raises `IndexError`. -/
def pyIndex {α : Type} (xs : List α) (i : ℤ) : Except PyErr α :=
  let j : ℤ := if i < 0 then i + (xs.length : ℤ) else i
  if j < 0 then .error PyErr.indexError
  else
    match xs.get? j.toNat with
    | some a => .ok a
    | none => .error PyErr.indexError

/-- Python `int()` applied to a float: truncation toward zero. -/
def pyInt (q : ℚ) : ℤ := if 0 ≤ q then ⌊q⌋ else ⌈q⌉

/-- Decimal value of a digit string. -/
def digitsToNat (cs : List Char) : ℕ :=
  cs.foldl (fun acc c => acc * 10 + (c.toNat - 48)) 0

/-- Python `int()` applied to a string of decimal digits (the only shape
reaching it in `handle_key`, where the argument is a non-empty substring
of `"0123456789"`); an empty or non-numeric string raises `ValueError`. -/
def pyIntOfString (s : String) : Except PyErr ℕ :=
  if s ≠ "" ∧ s.data.all (·.isDigit) then .ok (digitsToNat s.data)
  else .error PyErr.valueError

/-- Python list assignment `xs[n] = a` for a non-negative index:
out of range raises `IndexError`. -/
def pySetList {α : Type} (xs : List α) (n : ℕ) (a : α) : Except PyErr (List α) :=
  if n < xs.length then .ok (xs.set n a) else .error PyErr.indexError

/-- `np.argsort` on a vector: the list of indices that sorts the values
ascending (the tie order of `np.argsort`'s default quicksort is
unspecified; the model picks insertion sort's). -/
def argsort (vals : List ℚ) : List ℕ :=
  List.insertionSort (fun i j => vals.getD i 0 ≤ vals.getD j 0) (List.range vals.length)

/-- `max` / `np.max` of a list of floats; the call sites below only reach
it with a non-empty list, where Python would raise `ValueError`
the model returns 0. -/
def listMax : List ℚ → ℚ
  | [] => 0
  | x :: xs => xs.foldl max x

/-- The float literal `1e-6` (seconds per microsecond). -/
def rl1em6 : ℚ := Rat.divInt 1 1000000

/-- The float literal `1e6` (microseconds per second). -/
def rl1e6 : ℚ := 1000000

/-- The float literal `0.1`. -/
def rl01 : ℚ := Rat.divInt 1 10

/-- The float literal `0.01`. -/
def rl001 : ℚ := Rat.divInt 1 100

/-- The float literal `0.025`. -/
def rl0025 : ℚ := Rat.divInt 1 40

/-!  ## The slider classes (`spectrogram_widget.py`, lines 30-131)  -/

/-- `ValueSlider` (a `FloatRangeSlider`): the state read by its `range`
property: the two-element slider `value` and the `multiplier`. -/
structure ValueSlider where
  value : List ℚ
  multiplier : ℚ
  ymin : ℚ
  ymax : ℚ
deriving DecidableEq, Repr

/-- `ValueSlider.range` (lines 79-81):
`[v / self.multiplier for v in self.value]`. -/
def ValueSlider.range (s : ValueSlider) : List ℚ :=
  s.value.map (fun v => v / s.multiplier)

/-- `PercentSlider` (an `IntRangeSlider`): the slider `value` (a pair of
percentages) and the `_ymin`/`_ymax` bounds. -/
structure PercentSlider where
  value : List ℚ
  ymin : ℚ
  ymax : ℚ
deriving DecidableEq, Repr

/-- `PercentSlider.range` (lines 123-126):
`dy = 0.01 * (self.ymax - self.ymin); [v * dy + self.ymin for v in self.value]`. -/
def PercentSlider.range (s : PercentSlider) : List ℚ :=
  let dy := rl001 * (s.ymax - s.ymin)
  s.value.map (fun v => v * dy + s.ymin)

/-!  ## Data model of the widget and its collaborators  -/

/-- A `matplotlib` `Line2D` as far as the widget observes it: an identity
(Python object identity, used by `list.remove`), its data and color. -/
structure Line where
  id : ℕ
  xdata : List ℚ
  ydata : List ℚ
  color : String
deriving DecidableEq, Repr

/-- The external `Spectrum` object: the three attributes the widget
reads (`.db`, `.power`, `.velocities`). -/
structure Spectrum where
  db : List ℚ
  power : List ℚ
  velocities : List ℚ
deriving DecidableEq, Repr

/-- The data of the external `Spectrogram` collaborator that the widget's
modelled operations read. -/
structure Spectrogram where
  intensity : List (List ℚ)
  velocity : List ℚ
  time : List ℚ
  v_max : ℚ
  points_per_spectrum : ℚ
deriving DecidableEq, Repr

/-- One row of a `PeakFollower`'s `pandas` frame: the `time_index` column
entry and the `velocity_index_spans` column entry of that row. -/
structure FrameRow where
  time_index : ℕ
  span : ℕ × ℕ
deriving DecidableEq, Repr

/-- The state of an external `PeakFollower` object. -/
structure PFState where
  frame : List FrameRow
deriving DecidableEq, Repr

/-- A `PeakFollower` as stored in `self.peak_followers`, together with its
`line` attribute (absent until `follow` plots it; reading it then raises
`AttributeError`). -/
structure PeakFollowerObj where
  st : PFState
  line : Option ℕ
deriving DecidableEq, Repr

/-- One entry of `self.baselines`: the dict `dict(v=v, line=bline)`. -/
structure Baseline where
  v : ℚ
  lineId : ℕ
deriving DecidableEq, Repr

/-- One entry of `self.spectra`: the dict built in `spectrum()` with keys
`spectrum`, `max`, `90`, `line`, `marker`. -/
structure SpecEntry where
  spectrum : Spectrum
  maxVal : ℚ
  p90 : ℚ
  lineId : ℕ
  markerId : ℕ
deriving DecidableEq, Repr

/-- One entry of `self.roi`: the dict `dict(time=(t0, t1), velocity=(v0, v1))`
appended by `RSelect`. -/
structure RoiEntry where
  time : ℚ × ℚ
  velocity : ℚ × ℚ
deriving DecidableEq, Repr

/-- One entry of `self.gauss_outs` as stored by `gauss_out`. -/
structure GaussOutEntry where
  time : List ℚ
  center : List ℚ
  width : List ℚ
  amplitude : List ℚ
deriving DecidableEq, Repr

/-- The result of the external `Gaussian(speeds, powers)` fit. -/
structure GaussianFit where
  valid : Bool
  center : ℚ
  width : ℚ
  amplitude : ℚ
deriving DecidableEq, Repr

/-- The mutable state of a `SpectrogramWidget` that the modelled event
handlers read and write. -/
structure SpectrogramWidget where
  selecting : Bool
  clicker : String
  roi : List RoiEntry
  spectra : List SpecEntry
  peak_followers : List PeakFollowerObj
  baselines : List Baseline
  gauss_outs : Option (List (Option GaussOutEntry))
  spectra_in_db : Bool
  threshold : Option ℚ
  spectrogram : Spectrogram
  dt : ℚ
  axSpectrogramLines : List Line
  axSpectrumLines : List Line
  axTrackLines : List Line
  axSpectrumXlim : Option (ℚ × ℚ)
  axSpectrumXlabel : String
  marqueeActive : Bool
  gauss : Option (ℚ × Option ℚ)
  subfig : Bool
  nextLineId : ℕ
deriving DecidableEq, Repr

/-- The external collaborators of the widget (`Spectrogram.power`,
`Gaussian`, `Spectrum` construction from `DigFile` values, `PeakFollower`
construction and `run`, `GaussianFitter` construction), modelled as
function parameters since their code is outside this repository. -/
structure Externals where
  power : ℚ → ℚ
  gaussianOf : List ℚ → List ℚ → GaussianFit
  spectrumOf : ℚ → ℚ → Spectrum
  mkPF : ℚ → Option ℚ → Except PyErr PFState
  runPF : PFState → Except PyErr PFState
  v_of_t : PFState → List ℚ × List ℚ
  mkGF : ℚ → Option ℚ → Except PyErr (ℚ × Option ℚ)

/-- A `button_press_event` as `handle_click` reads it: `xdata`/`ydata` are
`None` for clicks outside the axes. -/
structure ClickEvent where
  xdata : Option ℚ
  ydata : Option ℚ
deriving DecidableEq, Repr

/-- A `key_press_event` as `handle_key` reads it (`key` may be `None`). -/
structure KeyEvent where
  xdata : Option ℚ
  ydata : Option ℚ
  key : Option String
deriving DecidableEq, Repr

/-!  ## Widget operations (`spectrogram_widget.py`)  -/

/-- `RSelect` (lines 408-416): order the marquee corners and append a
region-of-interest dict to `self.roi`. -/
def RSelect (w : SpectrogramWidget) (eclick erelease : ℚ × ℚ) : SpectrogramWidget :=
  let t0 := eclick.1
  let t1 := erelease.1
  let v0 := eclick.2
  let v1 := erelease.2
  let tp := if t1 < t0 then (t1, t0) else (t0, t1)
  let vp := if v1 < v0 then (v1, v0) else (v0, v1)
  { w with roi := w.roi ++ [⟨tp, vp⟩] }

/-- `analyze_roi` (lines 671-676): `for roi in self.roi:
analyze_region(self.spectrogram, roi['time'])`.  The name `analyze_region`
is neither defined nor imported anywhere in the module, so the first loop
iteration raises `NameError`; with an empty `self.roi` the loop body never
runs and the call returns normally. -/
def analyze_roi (w : SpectrogramWidget) : SpectrogramWidget × Except PyErr Unit :=
  match w.roi with
  | [] => (w, .ok ())
  | _ :: _ => (w, .error PyErr.nameError)

/-- Python `lines.remove(x)` on an axes line list: removes the first
element identical to `x`, raising `ValueError` when absent. -/
def removeLine : List Line → ℕ → Except PyErr (List Line)
  | [], _ => .error PyErr.valueError
  | l :: ls, i =>
    if l.id = i then .ok ls
    else
      match removeLine ls i with
      | .ok ls2 => .ok (l :: ls2)
      | .error e => .error e

/-- The loop of `clear_spectra` (lines 588-597): for each stored spectrum
remove its marker from `axSpectrogram.lines` and its line from
`axSpectrum.lines`; afterwards reset `self.spectra` to `[]`.  An exception
part-way leaves the lines partially removed and `self.spectra` intact. -/
def clearSpectraLoop (w : SpectrogramWidget) :
    List SpecEntry → SpectrogramWidget × Except PyErr Unit
  | [] => ({ w with spectra := [] }, .ok ())
  | x :: rest =>
    match removeLine w.axSpectrogramLines x.markerId with
    | .error e => (w, .error e)
    | .ok sg =>
      let w1 := { w with axSpectrogramLines := sg }
      match removeLine w1.axSpectrumLines x.lineId with
      | .error e => (w1, .error e)
      | .ok sp => clearSpectraLoop { w1 with axSpectrumLines := sp } rest

/-- `clear_spectra` (lines 588-597). -/
def clear_spectra (w : SpectrogramWidget) : SpectrogramWidget × Except PyErr Unit :=
  clearSpectraLoop w w.spectra

/-- The loop of `clear_followers` (lines 599-605): remove each follower's
`line` from `axSpectrogram.lines` (reading a missing `line` attribute
raises `AttributeError`); afterwards reset `self.peak_followers`. -/
def clearFollowersLoop (w : SpectrogramWidget) :
    List PeakFollowerObj → SpectrogramWidget × Except PyErr Unit
  | [] => ({ w with peak_followers := [] }, .ok ())
  | x :: rest =>
    match x.line with
    | none => (w, .error PyErr.attributeError)
    | some lid =>
      match removeLine w.axSpectrogramLines lid with
      | .error e => (w, .error e)
      | .ok sg => clearFollowersLoop { w with axSpectrogramLines := sg } rest

/-- `clear_followers` (lines 599-605). -/
def clear_followers (w : SpectrogramWidget) : SpectrogramWidget × Except PyErr Unit :=
  clearFollowersLoop w w.peak_followers

/-- `follow` (lines 607-622): on "Gauss" build a `GaussianFitter` and store
it in `self.gauss`; on "Peak" append a `PeakFollower`, `run()` it, then
plot `v_of_t` on the spectrogram axes and record the plotted line on the
follower.  The follower is appended before `run()`, so a failing run
leaves a line-less follower in `self.peak_followers`. -/
def follow (E : Externals) (w : SpectrogramWidget) (t : ℚ) (v : Option ℚ)
    (action : String) : SpectrogramWidget × Except PyErr Unit :=
  if action = "Gauss" then
    match E.mkGF t v with
    | .error e => (w, .error e)
    | .ok g => ({ w with gauss := some g }, .ok ())
  else if action = "Peak" then
    match E.mkPF t v with
    | .error e => (w, .error e)
    | .ok st =>
      let w1 := { w with peak_followers := w.peak_followers ++ [(⟨st, none⟩ : PeakFollowerObj)] }
      match E.runPF st with
      | .error e => (w1, .error e)
      | .ok st2 =>
        let w2 := { w1 with
          peak_followers := w1.peak_followers.dropLast ++ [(⟨st2, none⟩ : PeakFollowerObj)] }
        let tv := E.v_of_t st2
        let lid := w2.nextLineId
        let w3 := { w2 with
          axSpectrogramLines :=
            w2.axSpectrogramLines ++ [(⟨lid, tv.1.map (· * rl1e6), tv.2, "r-"⟩ : Line)],
          nextLineId := lid + 1 }
        let w4 := { w3 with
          peak_followers := w3.peak_followers.dropLast ++ [(⟨st2, some lid⟩ : PeakFollowerObj)] }
        (w4, .ok ())
  else (w, .ok ())

/-- The slice-and-index `sp.intensity[vfrom:vto, t]` of `gauss_out` and
`fan_out`: the rows `vfrom ≤ i < vto` (slices clamp) each indexed at
column `t` (an out-of-range integer index raises `IndexError`). -/
def sliceCol (m : List (List ℚ)) (vfrom vto t : ℕ) : Except PyErr (List ℚ) :=
  ((m.drop vfrom).take (vto - vfrom)).mapM (fun row =>
    match row.get? t with
    | some a => Except.ok a
    | none => Except.error PyErr.indexError)

/-- The python slice `xs[vfrom:vto]` (clamping, never raising). -/
def pySlice {α : Type} (xs : List α) (vfrom vto : ℕ) : List α :=
  (xs.drop vfrom).take (vto - vfrom)

/-- The accumulating loop of `gauss_out` (lines 632-643): for each frame
row fit a `Gaussian` to the power slice and keep the fits with
`gus.valid`, collecting times, centers, widths and amplitudes. -/
def gaussOutLoop (E : Externals) (sg : Spectrogram) :
    List FrameRow → Except PyErr (List (ℚ × ℚ × ℚ × ℚ))
  | [] => .ok []
  | row :: rest =>
    match pyIndex sg.time (row.time_index : ℤ) with
    | .error e => .error e
    | .ok traw =>
      let t := traw * rl1e6
      match sliceCol sg.intensity row.span.1 row.span.2 row.time_index with
      | .error e => .error e
      | .ok raw =>
        let powers := raw.map E.power
        let speeds := pySlice sg.velocity row.span.1 row.span.2
        let gus := E.gaussianOf speeds powers
        match gaussOutLoop E sg rest with
        | .error e => .error e
        | .ok tail =>
          if gus.valid then .ok ((t, gus.center, gus.width, gus.amplitude) :: tail)
          else .ok tail

/-- `gauss_out` (lines 624-669).  With `n >= len(self.peak_followers)` it
returns 0 immediately; otherwise it runs the Gaussian fits, draws them on
a fresh (local, unrecorded) figure, pads or creates `self.gauss_outs` and
stores the fit arrays at index `n`. -/
def gauss_out (E : Externals) (w : SpectrogramWidget) (n : ℕ) :
    SpectrogramWidget × Except PyErr (Option ℤ) :=
  if n ≥ w.peak_followers.length then (w, .ok (some 0))
  else
    match w.peak_followers.get? n with
    | none => (w, .error PyErr.indexError)
    | some pf =>
      match gaussOutLoop E w.spectrogram pf.st.frame with
      | .error e => (w, .error e)
      | .ok fits =>
        let gos :=
          match w.gauss_outs with
          | none => List.replicate w.peak_followers.length
              (none : Option GaussOutEntry)
          | some gs => gs ++ List.replicate (w.peak_followers.length - gs.length)
              (none : Option GaussOutEntry)
        let entry : GaussOutEntry :=
          ⟨fits.map (·.1), fits.map (·.2.1), fits.map (·.2.2.1), fits.map (·.2.2.2)⟩
        match pySetList gos n (some entry) with
        | .error e => (w, .error e)
        | .ok gos2 => ({ w with gauss_outs := some gos2 }, .ok none)

/-- The span-extraction loop of `fan_out` (lines 698-711): one
`{'v': …, 'power': …, 't': …}` dict per frame row. -/
def fanOutSpans (E : Externals) (sg : Spectrogram) :
    List FrameRow → Except PyErr (List (List ℚ × List ℚ × ℚ))
  | [] => .ok []
  | row :: rest =>
    let v := pySlice sg.velocity row.span.1 row.span.2
    match sliceCol sg.intensity row.span.1 row.span.2 row.time_index with
    | .error e => .error e
    | .ok raw =>
      let p := raw.map E.power
      match pyIndex sg.time (row.time_index : ℤ) with
      | .error e => .error e
      | .ok traw =>
        match fanOutSpans E sg rest with
        | .error e => .error e
        | .ok tail => .ok ((v, p, traw * rl1e6) :: tail)

/-- `np.max` on an array (raises `ValueError` when empty). -/
def npMax (xs : List ℚ) : Except PyErr ℚ :=
  match xs with
  | [] => .error PyErr.valueError
  | x :: rest => .ok (rest.foldl max x)

/-- The reversed waterfall-plot loop of `fan_out` (lines 719-726). -/
def fanOutPlots (offset : ℚ) : List (List ℚ × List ℚ × ℚ) → List Line
  | spans =>
    ((List.range spans.length).reverse).filterMap (fun n =>
      match spans.get? n with
      | some span => some ⟨n, span.1.map (· + (n : ℚ) * offset), span.2.1, "b-"⟩
      | none => none)

/-- `fan_out` (lines 678-727).  With `n >= len(self.peak_followers)` it
returns 0 immediately; otherwise it creates the sub-figure (mutating
`self.subfig`, `self.axSpare`, `self.axTrack`), extracts the spans and
plots the waterfall on the new `axTrack`. -/
def fan_out (E : Externals) (w : SpectrogramWidget) (n : ℕ) :
    SpectrogramWidget × Except PyErr (Option ℤ) :=
  if n ≥ w.peak_followers.length then (w, .ok (some 0))
  else
    match w.peak_followers.get? n with
    | none => (w, .error PyErr.indexError)
    | some pf =>
      let w1 := { w with subfig := true, axTrackLines := [] }
      match fanOutSpans E w.spectrogram pf.st.frame with
      | .error e => (w1, .error e)
      | .ok spans =>
        match spans.mapM (fun s => npMax s.2.1) with
        | .error e => (w1, .error e)
        | .ok maxima =>
          match npMax maxima with
          | .error e => (w1, .error e)
          | .ok maxpower =>
            let offset := rl0025 * maxpower
            ({ w1 with axTrackLines := fanOutPlots offset spans }, .ok none)

/-- The baseline-skipping loop of `spectrum` (lines 786-791):
`n = -1; while the_spectrum.velocities[ordering[n]] in blines: n -= 1`.
The fuel argument starts at `ordering.length + 1`; the indexing itself
raises `IndexError` strictly before that fuel can run out, so the fuel-0
branch is unreachable and the recursion is faithful to the loop. -/
def skipBaselines (velocities : List ℚ) (ordering : List ℕ) (blines : List ℚ) :
    ℕ → ℤ → Except PyErr ℤ
  | 0, _ => .error PyErr.indexError
  | fuel + 1, n =>
    match pyIndex ordering n with
    | .error e => .error e
    | .ok o =>
      match pyIndex velocities (o : ℤ) with
      | .error e => .error e
      | .ok vel =>
        if vel ∈ blines then skipBaselines velocities ordering blines fuel (n - 1)
        else .ok n

/-- The list literal `_colors = ["r", "g", "b", "y"]` of `spectrum`. -/
def pltColors : List String := ["r", "g", "b", "y"]

/-- The fallible computations of `spectrum` (lines 763-833) that all
happen before any state is mutated: the baseline-skipping maximum search,
the `max` and 90th-percentile levels of the dB values, and the color
lookup `_colors[len(self.spectra)]` (evaluated while building the plot
call, before the line is added).  Returns `(spec['max'], spec['90'],
color)` or the first exception raised. -/
def spectrumChecks (E : Externals) (w : SpectrogramWidget) (t : ℚ)
    (_form : String) : Except PyErr (ℚ × ℚ × String) :=
  let delta_t := w.spectrogram.points_per_spectrum / 2 * w.dt
  let the_spectrum := E.spectrumOf (t - delta_t) (t + delta_t)
  let vals := the_spectrum.db
  let ordering := argsort vals
  let nres : Except PyErr ℤ :=
    if w.baselines ≠ [] then
      let blines := w.baselines.map (·.v)
      skipBaselines the_spectrum.velocities ordering blines
        (ordering.length + 1) (-1)
    else .ok (-1)
  match nres with
  | .error e => .error e
  | .ok n =>
    match pyIndex ordering n with
    | .error e => .error e
    | .ok oMax =>
      match pyIndex vals (oMax : ℤ) with
      | .error e => .error e
      | .ok specMax =>
        let noise_floor : ℤ := pyInt ((n : ℚ) - rl01 * (vals.length : ℚ))
        match pyIndex ordering noise_floor with
        | .error e => .error e
        | .ok o90 =>
          match pyIndex vals (o90 : ℤ) with
          | .error e => .error e
          | .ok spec90 =>
            match pltColors.get? w.spectra.length with
            | none => .error PyErr.indexError
            | some color => .ok (specMax, spec90, color)

/-- The state mutations of `spectrum` (lines 798-832), run once the
fallible computations have succeeded: plot `db` or `power` — `db` exactly
when `'dB' in form` — against `velocities` in the free color, draw the
time marker, append the spectrum dict to `self.spectra`, replot every
stored spectrum on a dB/linear mode switch, and set the x label and (in
dB mode) the x limits. -/
def spectrumBuild (E : Externals) (w : SpectrogramWidget) (t : ℚ)
    (form : String) (specMax spec90 : ℚ) (color : String) :
    SpectrogramWidget :=
  let delta_t := w.spectrogram.points_per_spectrum / 2 * w.dt
  let the_spectrum := E.spectrumOf (t - delta_t) (t + delta_t)
  let db := strContains form "dB"
  let xfield := if db then the_spectrum.db else the_spectrum.power
  let lid := w.nextLineId
  let w1 := { w with
    axSpectrumLines := w.axSpectrumLines ++
      [(⟨lid, xfield, the_spectrum.velocities, color⟩ : Line)],
    nextLineId := lid + 1 }
  let tval := t * rl1e6
  let mid := w1.nextLineId
  let w2 := { w1 with
    axSpectrogramLines := w1.axSpectrogramLines ++
      [(⟨mid, [tval, tval], [0, w.spectrogram.v_max], color⟩ : Line)],
    nextLineId := mid + 1 }
  let entry : SpecEntry := ⟨the_spectrum, specMax, spec90, lid, mid⟩
  let w3 := { w2 with spectra := w2.spectra ++ [entry] }
  let w4 :=
    if db ≠ w3.spectra_in_db then
      let w3a := { w3 with spectra_in_db := db }
      { w3a with axSpectrumLines := w3a.axSpectrumLines.map (fun L =>
          match w3a.spectra.find? (fun s => s.lineId = L.id) with
          | some s =>
            { L with
              xdata := if db then s.spectrum.db else s.spectrum.power,
              ydata := s.spectrum.velocities }
          | none => L) }
    else w3
  let w5 := { w4 with
    axSpectrumXlabel := if db then "Power (dB)" else "Power" }
  if db then
    let ninety := listMax (w5.spectra.map (·.p90))
    let peak := listMax (w5.spectra.map (·.maxVal))
    { w5 with axSpectrumXlim := some (ninety, peak) }
  else w5

/-- `spectrum` (lines 763-833).  With `the_time = None` (only used from
`__init__`) it merely configures the grid and returns `None`.  Otherwise
all the fallible computations (`spectrumChecks`) precede every mutation,
exactly as in the source; on success the mutations (`spectrumBuild`) are
applied and 0 is returned. -/
def SpectrogramWidget.spectrum (E : Externals) (w : SpectrogramWidget)
    (the_time : Option ℚ) (form : String) :
    SpectrogramWidget × Except PyErr (Option ℤ) :=
  match the_time with
  | none => (w, .ok none)
  | some t =>
    match spectrumChecks E w t form with
    | .error e => (w, .error e)
    | .ok (specMax, spec90, color) =>
      (spectrumBuild E w t form specMax spec90 color, .ok (some 0))

/-- `handle_click` (lines 549-566), parametric in the two dispatched
actions so that the suppression property holds for an arbitrary behaviour
of `self.spectrum` and `self.follow`.  Reading `event.xdata * 1e-6` with
`xdata = None` raises `TypeError`, swallowed by the bare `except` clause
returning 0; with a marquee selection active the handler returns 0; the
dispatched action runs under `except Exception: pass`, so its final state
is kept and its exception dropped, the handler returning `None`. -/
def handle_click
    (spectrumI : SpectrogramWidget → ℚ → String →
      SpectrogramWidget × Except PyErr (Option ℤ))
    (followI : SpectrogramWidget → ℚ → Option ℚ → String →
      SpectrogramWidget × Except PyErr Unit)
    (w : SpectrogramWidget) (ev : ClickEvent) :
    SpectrogramWidget × Except PyErr (Option ℤ) :=
  match ev.xdata with
  | none => (w, .ok (some 0))
  | some x =>
    let t := x * rl1em6
    let v := ev.ydata
    if w.selecting then (w, .ok (some 0))
    else
      let action := w.clicker
      if strContains action "Spectrum" then ((spectrumI w t action).1, .ok none)
      else ((followI w t v action).1, .ok none)

/-- The concrete `handle_click`, dispatching to this file's `spectrum` and
`follow` models. -/
def handleClickConcrete (E : Externals) (w : SpectrogramWidget) (ev : ClickEvent) :
    SpectrogramWidget × Except PyErr (Option ℤ) :=
  handle_click (fun w1 t a => SpectrogramWidget.spectrum E w1 (some t) a)
    (fun w1 t v a => follow E w1 t v a) w ev

/-- The 'a'/'A' step of `handle_key` (lines 585-586):
`if char in ('a', 'A') and self.roi: self.analyze_roi()`. -/
def handleKeyROI (w : SpectrogramWidget) (c : String) :
    SpectrogramWidget × Except PyErr Unit :=
  if (c = "a" ∨ c = "A") ∧ w.roi ≠ [] then analyze_roi w else (w, .ok ())

/-- The 'x' step of `handle_key` (lines 575-577):
`if char == 'x': self.clear_spectra()`. -/
def handleKeyX (w : SpectrogramWidget) (char : Option String) :
    SpectrogramWidget × Except PyErr Unit :=
  if char = some "x" then clear_spectra w else (w, .ok ())

/-- The 'm'/'M' step of `handle_key` (lines 578-580): toggle
`self.selecting` and activate or deactivate the marquee accordingly. -/
def handleKeyMarquee (w : SpectrogramWidget) (char : Option String) :
    SpectrogramWidget :=
  if char = some "m" ∨ char = some "M" then
    let sel := !w.selecting
    { w with selecting := sel, marqueeActive := sel }
  else w

/-- The digit and 'a'/'A' steps of `handle_key` (lines 581-586).  The
membership test `char in "0123456789"` raises `TypeError` on a `None`
key; `int(char)` then converts the matched substring (raising
`ValueError` on the empty string, which Python counts as a substring);
`gauss_out` runs outside any `try` block, so its exception escapes. -/
def handleKeyDigits (E : Externals) (w : SpectrogramWidget)
    (char : Option String) : SpectrogramWidget × Except PyErr Unit :=
  match char with
  | none => (w, .error PyErr.typeError)
  | some c =>
    if strContains "0123456789" c then
      match pyIntOfString c with
      | .error e => (w, .error e)
      | .ok n =>
        match gauss_out E w n with
        | (w3, .error e) => (w3, .error e)
        | (w3, .ok _) => handleKeyROI w3 c
    else handleKeyROI w c

/-- `handle_key` (lines 568-586).  The `try`/`except: pass` around the
coordinate conversion swallows its `TypeError` and the converted values
are never used, so the body depends only on `event.key`.  The dispatched
actions (`clear_spectra` for `'x'`, the marquee toggle for `'m'`/`'M'`,
`gauss_out` for a digit key, `analyze_roi` for `'a'`/`'A'`) run outside
any `try` block: an exception in them escapes the handler. -/
def handle_key (E : Externals) (w : SpectrogramWidget) (ev : KeyEvent) :
    SpectrogramWidget × Except PyErr Unit :=
  let char := ev.key
  match handleKeyX w char with
  | (w1, .error e) => (w1, .error e)
  | (w1, .ok _) => handleKeyDigits E (handleKeyMarquee w1 char) char

/-!  ## Interface surfaces (transcribed member accesses and imports)  -/

/-- Every distinct member of the `Spectrogram` collaborator read by
`SpectrogramWidget` in `spectrogram_widget.py`, one entry per name:
`overlap` (line 267), `v_max` (289, 811, 845), `intensity` (297, 469,
470, 635, 701, 751, 752), `set` (457), `slice` (482), `histogram_levels`
(515), `transform` (516), `time` (633, 700), `power` (635, 709),
`velocity` (636, 699), `points_per_spectrum` (775). -/
def spectrogramMembersAccessed : List String :=
  ["overlap", "v_max", "intensity", "set", "slice", "histogram_levels",
   "transform", "time", "power", "velocity", "points_per_spectrum"]

/-- The `Spectrogram` interface named by the spec: "a spectrogram
computation object exposing `.intensity`, `.velocity`, `.time`,
`.slice()`, `.set()`, and `.transform()`". -/
def specSpectrogramMembers : List String :=
  ["intensity", "velocity", "time", "slice", "set", "transform"]

/-- Every distinct member of a constructed `Spectrum` object read by
`SpectrogramWidget` in `spectrogram_widget.py`: `.db` (lines 784, 835),
`.velocities` (789, 801, 824, 836), and via `getattr(the_spectrum, field)`
with `field` either `'db'` or `'power'` (799-800, 824). -/
def spectrumMembersAccessed : List String := ["db", "velocities", "power"]

/-- The `Spectrum` interface named by the spec:
"a `Spectrum` object exposing `.db`/`.power`/`.velocities`". -/
def specSpectrumMembers : List String := ["db", "power", "velocities"]

/-- Every module imported anywhere in this repository's two source files
(`import`/`from … import` statements, including the lazy imports inside
`update_cmap` and `update_baselines` and the conditional
`imageio`/`scipy.misc` import of `saveTemplateImages.py`). -/
def importedModules : List String :=
  ["numpy", "matplotlib.pyplot", "matplotlib.gridspec", "ipywidgets",
   "matplotlib", "IPython.display", "digfile", "spectrogram", "spectrum",
   "plotter", "gaussian", "gaussian_follow", "peak_follower",
   "generate_color_map", "baselines", "tqdm", "os",
   "ImageProcessing.TemplateMatching.Templates.templates", "scipy",
   "imageio", "scipy.misc"]

/-- The Python standard-library modules providing threads, processes,
asynchronous scheduling, synchronization or inter-thread queues. -/
def concurrencyModules : List String :=
  ["threading", "_thread", "thread", "multiprocessing", "asyncio",
   "concurrent", "concurrent.futures", "queue", "sched", "subprocess",
   "select", "selectors", "signal", "socketserver"]

/-!  ## The template-image export script
(`ImageProcessing/TemplateMatching/Templates/saveTemplateImages.py`)

Paths are modelled as lists of components from the filesystem root; the
process state is the current working directory plus the set of files,
each a `(directory, filename)` key with its written content (the template
value standing in for the image bytes). -/

/-- Process/filesystem state visible to the script: the current working
directory (an absolute path, as returned by `os.getcwd()`) and the files
present, keyed by `(directory, filename)` with their content. -/
structure FS where
  cwd : List String
  files : List ((List String × String) × String)
deriving DecidableEq, Repr

/-- `os.path.relpath(target, base)` on component lists: drop the common
leading components, then one `".."` per remaining base component followed
by the remaining target components.  (`os.path.relpath` with equal
arguments returns `'.'`, whose `os.path.split` dirname is the empty
string: component list `[]`.) -/
def relpathComponents : List String → List String → List String
  | t, [] => t
  | [], b => List.replicate b.length ".."
  | x :: t, y :: b =>
    if x = y then relpathComponents t b
    else List.replicate (b.length + 1) ".." ++ (x :: t)

/-- Resolution of a relative path against a base directory: `".."` pops
the last component (a no-op at the root, as on a real filesystem), any
other component descends. -/
def resolveRel (base : List String) (p : List String) : List String :=
  p.foldl (fun acc c => if c = ".." then acc.dropLast else acc ++ [c]) base

/-- `os.chdir` on a relative path: `os.chdir('')` (empty component list)
raises `FileNotFoundError`; otherwise the cwd becomes the resolved
directory. -/
def chdirRel (fs : FS) (p : List String) : Except PyErr FS :=
  if p = [] then .error PyErr.fileNotFoundError
  else .ok { fs with cwd := resolveRel fs.cwd p }

/-- `getImageDirectory` (lines 21-22):
`os.path.split(os.path.relpath(__file__))[0]`, the dirname of the path of
the script file relative to the current working directory. -/
def getImageDirectory (scriptPath : List String) (cwd : List String) :
    List String :=
  (relpathComponents scriptPath cwd).dropLast

/-- The image filename `f"im_template_{x}.png"` for a template whose
string form is `x`. -/
def imName (x : String) : String := "im_template_" ++ x ++ ".png"

/-- One iteration of the `saveAllTemplateImages` loop (lines 15-17): if
`./im_template_{x}.png` does not exist in the current directory, write it
(`imsave`), with the template value as its content. -/
def saveStep (s : FS) (x : String) : FS :=
  if s.files.any (fun f => f.1 = (s.cwd, imName x)) then s
  else { s with files := s.files ++ [((s.cwd, imName x), x)] }

/-- `saveAllTemplateImages` (lines 13-17), parametric in the string forms
of the members of the external `Templates` enumeration (the
`ImageProcessing.…templates` module is not part of the two source files).
The `tqdm`/`enumerate` wrapper only reports progress; `ind` is unused. -/
def saveAllTemplateImages (templates : List String) (fs : FS) : FS :=
  templates.foldl saveStep fs

/-- The module-level statements of `saveTemplateImages.py` (lines 26-30),
run once on first import:
`imageSaveDir = getImageDirectory(); currDir = os.getcwd();
os.chdir(imageSaveDir); saveAllTemplateImages(); os.chdir(currDir)`.
The final `os.chdir(currDir)` receives the absolute path captured before
the walk, restoring it directly. -/
def runSaveTemplateImagesModule (templates : List String)
    (scriptPath : List String) (fs : FS) : Except PyErr FS :=
  let imageSaveDir := getImageDirectory scriptPath fs.cwd
  let currDir := fs.cwd
  match chdirRel fs imageSaveDir with
  | .error e => .error e
  | .ok fs1 =>
    let fs2 := saveAllTemplateImages templates fs1
    .ok { fs2 with cwd := currDir }

/-!  ## Reachable widget states  -/

/-- Every element of `self.roi` has its time pair and velocity pair in
nondecreasing order. -/
def roiOrdered (w : SpectrogramWidget) : Prop :=
  ∀ r ∈ w.roi, r.time.1 ≤ r.time.2 ∧ r.velocity.1 ≤ r.velocity.2

/-- One user-visible transition of the widget: any of the modelled event
handlers and callbacks firing once (final state kept whether or not the
handler raised). -/
inductive WidgetStep (E : Externals) : SpectrogramWidget → SpectrogramWidget → Prop
  | rselect (w : SpectrogramWidget) (e1 e2 : ℚ × ℚ) :
      WidgetStep E w (RSelect w e1 e2)
  | key (w : SpectrogramWidget) (ev : KeyEvent) :
      WidgetStep E w (handle_key E w ev).1
  | click (w : SpectrogramWidget) (ev : ClickEvent) :
      WidgetStep E w (handleClickConcrete E w ev).1
  | clearSpectraBtn (w : SpectrogramWidget) :
      WidgetStep E w (clear_spectra w).1
  | clearFollowersBtn (w : SpectrogramWidget) :
      WidgetStep E w (clear_followers w).1
  | gaussOut (w : SpectrogramWidget) (n : ℕ) :
      WidgetStep E w (gauss_out E w n).1
  | fanOut (w : SpectrogramWidget) (n : ℕ) :
      WidgetStep E w (fan_out E w n).1
  | spectrumCall (w : SpectrogramWidget) (t : Option ℚ) (form : String) :
      WidgetStep E w (SpectrogramWidget.spectrum E w t form).1
  | followCall (w : SpectrogramWidget) (t : ℚ) (v : Option ℚ) (a : String) :
      WidgetStep E w (follow E w t v a).1
  | analyzeRoi (w : SpectrogramWidget) :
      WidgetStep E w (analyze_roi w).1

/-!  ## Concrete instances used by the closed witness theorems  -/

/-- A concrete collaborator bundle. -/
def E0 : Externals where
  power := id
  gaussianOf := fun _ _ => ⟨false, 0, 0, 0⟩
  spectrumOf := fun _ _ => ⟨[5], [7], [9]⟩
  mkPF := fun _ _ => .ok ⟨[]⟩
  runPF := fun s => .ok s
  v_of_t := fun _ => ([], [])
  mkGF := fun t v => .ok (t, v)

/-- A concrete collaborator bundle whose two dispatched click actions both
raise. -/
def spectrumRaises : SpectrogramWidget → ℚ → String →
    SpectrogramWidget × Except PyErr (Option ℤ) :=
  fun w _ _ => (w, .error PyErr.keyError)

/-- A follow action that raises. -/
def followRaises : SpectrogramWidget → ℚ → Option ℚ → String →
    SpectrogramWidget × Except PyErr Unit :=
  fun w _ _ _ => (w, .error PyErr.indexError)

/-- The widget state right after `__init__` (empty collections, marquee
off, default clicker). -/
def W0 : SpectrogramWidget where
  selecting := false
  clicker := "Spectrum (dB)"
  roi := []
  spectra := []
  peak_followers := []
  baselines := []
  gauss_outs := none
  spectra_in_db := true
  threshold := none
  spectrogram := ⟨[], [], [], 0, 0⟩
  dt := 0
  axSpectrogramLines := []
  axSpectrumLines := []
  axTrackLines := []
  axSpectrumXlim := none
  axSpectrumXlabel := ""
  marqueeActive := false
  gauss := none
  subfig := false
  nextLineId := 0

/-- `W0` with the marquee selection active. -/
def W0sel : SpectrogramWidget := { W0 with selecting := true }

/-- `W0` with one region of interest stored. -/
def W0roi : SpectrogramWidget := { W0 with roi := [⟨(0, 1), (2, 3)⟩] }

/-- `W0` with two regions of interest stored. -/
def W0roi2 : SpectrogramWidget := { W0 with roi := [⟨(0, 1), (2, 3)⟩, ⟨(4, 5), (6, 7)⟩] }

/-- A concrete percent slider: bounds 0–200, value `[10, 60]`. -/
def pSlider0 : PercentSlider := ⟨[10, 60], 0, 200⟩

/-- A concrete value slider: multiplier 2, value `[10, 60]`. -/
def vSlider0 : ValueSlider := ⟨[10, 60], 2, 0, 400⟩

/-- A concrete filesystem: cwd `/home`, no files. -/
def fs0 : FS := ⟨["home"], []⟩

/-!  ## Theorems  -/

/-- C8: For every `PercentSlider` with bounds `ymin`, `ymax` and slider
value `[a, b]`, the `range` property returns exactly
`[ymin + 0.01*a*(ymax - ymin), ymin + 0.01*b*(ymax - ymin)]`; and for
every `ValueSlider` with multiplier `m` and slider value `[x, y]`, the
`range` property returns exactly `[x/m, y/m]`. -/
theorem C8_slider_ranges (p : PercentSlider) (v : ValueSlider) (a b x y : ℚ)
    (hp : p.value = [a, b]) (hv : v.value = [x, y]) :
    p.range = [p.ymin + rl001 * a * (p.ymax - p.ymin),
               p.ymin + rl001 * b * (p.ymax - p.ymin)] ∧
    v.range = [x / v.multiplier, y / v.multiplier] := by
  constructor
  · simp only [PercentSlider.range, hp, List.map_cons, List.map_nil,
      List.cons.injEq, and_true]
    constructor <;> ring
  · simp [ValueSlider.range, hv]

/-- Witness for C8 at the concrete sliders `pSlider0` and `vSlider0`. -/
theorem C8_witness : pSlider0.range = [20, 120] ∧ vSlider0.range = [5, 30] := by
  have h := C8_slider_ranges pSlider0 vSlider0 10 60 10 60 rfl rfl
  refine ⟨?_, ?_⟩
  · rw [h.1]
    norm_num [pSlider0, rl001, Rat.divInt_eq_div]
  · rw [h.2]
    norm_num [vSlider0]

/-- C3: For every `n` at least the number of stored peak followers,
`gauss_out(n)` and `fan_out(n)` both return 0 without raising and leave
the entire widget state (in particular `peak_followers`, `spectra`,
`roi`, `baselines`, `gauss_outs`) unchanged. -/
theorem C3_out_of_bounds_follower (E : Externals) (w : SpectrogramWidget)
    (n : ℕ) (h : w.peak_followers.length ≤ n) :
    gauss_out E w n = (w, .ok (some 0)) ∧ fan_out E w n = (w, .ok (some 0)) := by
  constructor
  · simp [gauss_out, ge_iff_le, h]
  · simp [fan_out, ge_iff_le, h]

/-- Witness for C3: follower index 3 on a widget with no followers. -/
theorem C3_witness :
    gauss_out E0 W0 3 = (W0, .ok (some 0)) ∧
    fan_out E0 W0 3 = (W0, .ok (some 0)) :=
  C3_out_of_bounds_follower E0 W0 3 (by decide)

/-- C1: For every click event and any behaviour of the dispatched
actions, `handle_click` never ends in an uncaught exception; a click
whose coordinates cannot be read returns 0, a click during a marquee
selection returns 0, and an exception from the dispatched action is
suppressed (its state kept) with the handler returning normally. -/
theorem C1_handle_click_swallows
    (sI : SpectrogramWidget → ℚ → String →
      SpectrogramWidget × Except PyErr (Option ℤ))
    (fI : SpectrogramWidget → ℚ → Option ℚ → String →
      SpectrogramWidget × Except PyErr Unit)
    (w : SpectrogramWidget) (ev : ClickEvent) :
    (handle_click sI fI w ev).2.isOk = true ∧
    (ev.xdata = none → handle_click sI fI w ev = (w, .ok (some 0))) ∧
    (∀ x, ev.xdata = some x → w.selecting = true →
      handle_click sI fI w ev = (w, .ok (some 0))) := by
  refine ⟨?_, ?_, ?_⟩
  · unfold handle_click
    cases ev.xdata with
    | none => rfl
    | some x =>
      by_cases hsel : w.selecting
      · simp [hsel, Except.isOk, Except.toBool]
      · simp only [hsel]
        split <;> first | rfl | (split <;> rfl)
  · intro h
    unfold handle_click
    rw [h]
  · intro x hx hsel
    unfold handle_click
    rw [hx]
    simp [hsel]

/-- Witness for C1: both raising actions, on an unreadable click, a click
during selection, and a dispatched click. -/
theorem C1_witness :
    handle_click spectrumRaises followRaises W0 ⟨none, none⟩ = (W0, .ok (some 0)) ∧
    handle_click spectrumRaises followRaises W0sel ⟨some 1, some 2⟩ =
      (W0sel, .ok (some 0)) ∧
    (handle_click spectrumRaises followRaises W0 ⟨some 1, some 2⟩).2.isOk = true :=
  ⟨(C1_handle_click_swallows spectrumRaises followRaises W0 ⟨none, none⟩).2.1 rfl,
   (C1_handle_click_swallows spectrumRaises followRaises W0sel
      ⟨some 1, some 2⟩).2.2 1 rfl rfl,
   (C1_handle_click_swallows spectrumRaises followRaises W0 ⟨some 1, some 2⟩).1⟩

/-- C2 counterexample: pressing `'a'` with one stored region of interest
makes `handle_key` end in an uncaught `NameError` (the undefined
`analyze_region`), so the dispatched action's exception is not
suppressed and the claim is false as stated. -/
theorem C2_counterexample :
    handle_key E0 W0roi ⟨none, none, some "a"⟩ =
      (W0roi, .error PyErr.nameError) := by
  decide

/-- C2 as amended: `handle_key` swallows only the error raised while
converting the event coordinates (whose values are then unused, so the
handler depends only on `event.key`); exceptions raised by the dispatched
actions are not caught and escape the handler — in particular `'a'`/`'A'`
with a nonempty ROI list raises `NameError`. -/
theorem C2_handle_key_amended (E : Externals) (w : SpectrogramWidget)
    (ev ev' : KeyEvent) :
    (ev.key = ev'.key → handle_key E w ev = handle_key E w ev') ∧
    ((ev.key = some "a" ∨ ev.key = some "A") → w.roi ≠ [] →
      handle_key E w ev = (w, .error PyErr.nameError)) := by
  constructor
  · intro h
    unfold handle_key
    rw [h]
  · intro hk hroi
    obtain ⟨r, rs, hr⟩ := List.exists_cons_of_ne_nil hroi
    rcases hk with h | h
    · have hx : ¬(ev.key = some "x") := by rw [h]; decide
      have hm : ¬(ev.key = some "m" ∨ ev.key = some "M") := by rw [h]; decide
      have hd : strContains "0123456789" "a" = false := by decide
      simp [handle_key, handleKeyX, handleKeyMarquee, handleKeyDigits, h, hx,
        hm, hd, handleKeyROI, hr, analyze_roi]
    · have hx : ¬(ev.key = some "x") := by rw [h]; decide
      have hm : ¬(ev.key = some "m" ∨ ev.key = some "M") := by rw [h]; decide
      have hd : strContains "0123456789" "A" = false := by decide
      simp [handle_key, handleKeyX, handleKeyMarquee, handleKeyDigits, h, hx,
        hm, hd, handleKeyROI, hr, analyze_roi]

/-- Witness for C2's amended theorem: coordinate independence for the
`'q'` key and the propagating `NameError` for `'A'` with two stored
regions. -/
theorem C2_witness :
    handle_key E0 W0 ⟨some 5, some 6, some "q"⟩ =
      handle_key E0 W0 ⟨none, none, some "q"⟩ ∧
    handle_key E0 W0roi2 ⟨some 1, none, some "A"⟩ =
      (W0roi2, .error PyErr.nameError) :=
  ⟨(C2_handle_key_amended E0 W0 ⟨some 5, some 6, some "q"⟩
      ⟨none, none, some "q"⟩).1 rfl,
   (C2_handle_key_amended E0 W0roi2 ⟨some 1, none, some "A"⟩
      ⟨none, none, none⟩).2 (Or.inr rfl) (by decide)⟩

/-- C4 counterexample: the widget reads `self.spectrogram.overlap`
(line 267), a `Spectrogram` member outside the six the claim allows. -/
theorem C4_counterexample :
    "overlap" ∈ spectrogramMembersAccessed ∧
    "overlap" ∉ specSpectrogramMembers := by
  decide

/-- C4 as amended: every `Spectrogram` member the widget reads is one of
`.intensity`, `.velocity`, `.time`, `.slice()`, `.set()`, `.transform()`
or the five further members `overlap`, `v_max`, `histogram_levels`,
`power`, `points_per_spectrum`. -/
theorem C4_members_amended :
    spectrogramMembersAccessed.all (fun m =>
      (specSpectrogramMembers ++
        ["overlap", "v_max", "histogram_levels", "power",
         "points_per_spectrum"]).contains m) = true := by
  decide

/-- C10: no module providing threads, processes, asynchronous scheduling,
synchronization or shared queues is imported anywhere in the repository's
two source files; the widget only registers callbacks with the host GUI
event loop, so execution is single-threaded and cooperative. -/
theorem C10_no_concurrency_primitives :
    importedModules.all (fun m => !(concurrencyModules.contains m)) = true := by
  decide

/-- Helper: `find?` over a list ending in the only matching element. -/
theorem findAppendSingleton {α : Type} (p : α → Bool) (l : List α) (e : α)
    (hl : ∀ s ∈ l, p s = false) (he : p e = true) :
    (l ++ [e]).find? p = some e := by
  induction l with
  | nil => simp [List.find?, he]
  | cons a as ih =>
    have ha := hl a (by simp)
    rw [List.cons_append, List.find?_cons_of_neg _ (by simp [ha])]
    exact ih (fun s hs => hl s (by simp [hs]))

/-- Helper: the line plotted by `spectrumBuild` carries the selected
field as its x data and the spectrum's velocities as its y data. -/
theorem spectrumBuild_line (E : Externals) (w : SpectrogramWidget) (t : ℚ)
    (form : String) (specMax spec90 : ℚ) (color : String)
    (hids : ∀ s ∈ w.spectra, s.lineId < w.nextLineId) :
    (⟨w.nextLineId,
      (if strContains form "dB" then
        (E.spectrumOf (t - w.spectrogram.points_per_spectrum / 2 * w.dt)
          (t + w.spectrogram.points_per_spectrum / 2 * w.dt)).db
       else
        (E.spectrumOf (t - w.spectrogram.points_per_spectrum / 2 * w.dt)
          (t + w.spectrogram.points_per_spectrum / 2 * w.dt)).power),
      (E.spectrumOf (t - w.spectrogram.points_per_spectrum / 2 * w.dt)
        (t + w.spectrogram.points_per_spectrum / 2 * w.dt)).velocities,
      color⟩ : Line) ∈
      (spectrumBuild E w t form specMax spec90 color).axSpectrumLines := by
  by_cases hdb : strContains form "dB" = w.spectra_in_db
  · simp [spectrumBuild, hdb]
    rw [apply_ite (fun x : SpectrogramWidget => x.axSpectrumLines)]
    simp
  · have hnone : List.find? (fun s => decide (s.lineId = w.nextLineId)) w.spectra
        = none := by
      rw [List.find?_eq_none]
      intro s hs
      simp [Nat.ne_of_lt (hids s hs)]
    simp [spectrumBuild, hdb, hnone]
    rw [apply_ite (fun x : SpectrogramWidget => x.axSpectrumLines)]
    simp

/-- C6: every `Spectrum` attribute the widget reads is one of `.db`,
`.power`, `.velocities`; and whenever `spectrum` completes normally it
has plotted, against `.velocities`, the field `db` when the requested
form contains `'dB'` and the field `power` otherwise.  The line-id
hypothesis states that the ids of already-plotted spectra predate the
next free id, which holds in every reachable state. -/
theorem C6_spectrum_field_selection (E : Externals) (w : SpectrogramWidget)
    (t : ℚ) (form : String) (w' : SpectrogramWidget) (r : Option ℤ)
    (hids : ∀ s ∈ w.spectra, s.lineId < w.nextLineId)
    (h : SpectrogramWidget.spectrum E w (some t) form = (w', .ok r)) :
    spectrumMembersAccessed.all (fun m => specSpectrumMembers.contains m) = true ∧
    ∃ L ∈ w'.axSpectrumLines,
      L.xdata = (if strContains form "dB" then
          (E.spectrumOf (t - w.spectrogram.points_per_spectrum / 2 * w.dt)
            (t + w.spectrogram.points_per_spectrum / 2 * w.dt)).db
        else
          (E.spectrumOf (t - w.spectrogram.points_per_spectrum / 2 * w.dt)
            (t + w.spectrogram.points_per_spectrum / 2 * w.dt)).power) ∧
      L.ydata = (E.spectrumOf (t - w.spectrogram.points_per_spectrum / 2 * w.dt)
          (t + w.spectrogram.points_per_spectrum / 2 * w.dt)).velocities := by
  refine ⟨by decide, ?_⟩
  unfold SpectrogramWidget.spectrum at h
  have h2 : (match spectrumChecks E w t form with
      | Except.error e => (w, Except.error e)
      | Except.ok (specMax, spec90, color) =>
        (spectrumBuild E w t form specMax spec90 color,
          Except.ok (some (0 : ℤ)))) = (w', Except.ok r) := h
  cases hc : spectrumChecks E w t form with
  | error e =>
    rw [hc] at h2
    simp at h2
  | ok v =>
    obtain ⟨specMax, rest⟩ := v
    obtain ⟨spec90, color⟩ := rest
    rw [hc] at h2
    simp only [Prod.mk.injEq] at h2
    obtain ⟨hw, -⟩ := h2
    rw [← hw]
    exact ⟨_, spectrumBuild_line E w t form specMax spec90 color hids, rfl, rfl⟩

/-- Witness for C6: a concrete dB-form run of `spectrum` on `W0`. -/
theorem C6_witness :
    spectrumMembersAccessed.all (fun m => specSpectrumMembers.contains m) = true ∧
    ∃ L ∈ (SpectrogramWidget.spectrum E0 W0 (some 0) "dB").1.axSpectrumLines,
      L.xdata = (if strContains "dB" "dB" then
          (E0.spectrumOf (0 - W0.spectrogram.points_per_spectrum / 2 * W0.dt)
            (0 + W0.spectrogram.points_per_spectrum / 2 * W0.dt)).db
        else
          (E0.spectrumOf (0 - W0.spectrogram.points_per_spectrum / 2 * W0.dt)
            (0 + W0.spectrogram.points_per_spectrum / 2 * W0.dt)).power) ∧
      L.ydata = (E0.spectrumOf (0 - W0.spectrogram.points_per_spectrum / 2 * W0.dt)
          (0 + W0.spectrogram.points_per_spectrum / 2 * W0.dt)).velocities :=
  C6_spectrum_field_selection E0 W0 0 "dB"
    (SpectrogramWidget.spectrum E0 W0 (some 0) "dB").1 (some 0)
    (by decide)
    (by
      have hle : ¬ (Rat.divInt 1 10 ≤ (-1 : ℚ)) := by
        rw [Rat.divInt_eq_div]
        norm_num
      have harg : (-1 - Rat.divInt 1 10 : ℚ) = Rat.divInt (-11) 10 := by
        rw [Rat.divInt_eq_div, Rat.divInt_eq_div]
        norm_num
      have hceil : ⌈(-1 - Rat.divInt 1 10 : ℚ)⌉ = -1 := by
        rw [harg]
        decide
      have h2 : (SpectrogramWidget.spectrum E0 W0 (some 0) "dB").2 =
          Except.ok (some 0) := by
        norm_num [SpectrogramWidget.spectrum, spectrumChecks, E0, W0, argsort,
          List.insertionSort, List.orderedInsert, pyIndex, pyInt, rl01,
          pltColors, listMax, hle, hceil]
      rw [← h2])

/-- Helper: one save step never changes the working directory. -/
theorem saveStep_cwd (s : FS) (x : String) : (saveStep s x).cwd = s.cwd := by
  unfold saveStep
  split <;> rfl

/-- Helper: the save loop never changes the working directory. -/
theorem saveAll_cwd (ts : List String) (fs : FS) :
    (saveAllTemplateImages ts fs).cwd = fs.cwd := by
  induction ts generalizing fs with
  | nil => rfl
  | cons x xs ih =>
    show (saveAllTemplateImages xs (saveStep fs x)).cwd = fs.cwd
    rw [ih, saveStep_cwd]

/-- Helper: the save loop only appends files, each written into the
current directory, named after a template, and with a key absent from
the starting file set. -/
theorem saveAll_spec (ts : List String) (fs : FS) :
    ∃ new, (saveAllTemplateImages ts fs).files = fs.files ++ new ∧
      ∀ f ∈ new, f.1.1 = fs.cwd ∧ (∃ x ∈ ts, f.1.2 = imName x) ∧
        ∀ c, (f.1, c) ∉ fs.files := by
  induction ts generalizing fs with
  | nil => exact ⟨[], by simp [saveAllTemplateImages], by simp⟩
  | cons x xs ih =>
    show ∃ new, (saveAllTemplateImages xs (saveStep fs x)).files = _ ∧ _
    by_cases hp : fs.files.any (fun f => f.1 = (fs.cwd, imName x)) = true
    · have hstep : saveStep fs x = fs := by simp [saveStep, hp]
      rw [hstep]
      obtain ⟨new, h1, h2⟩ := ih fs
      refine ⟨new, h1, fun f hf => ?_⟩
      obtain ⟨hcwd, ⟨y, hy, hyn⟩, hnot⟩ := h2 f hf
      exact ⟨hcwd, ⟨y, List.mem_cons_of_mem x hy, hyn⟩, hnot⟩
    · have hstep : saveStep fs x =
          { fs with files := fs.files ++ [((fs.cwd, imName x), x)] } := by
        simp only [saveStep]
        rw [if_neg (by simpa using hp)]
      rw [hstep]
      obtain ⟨new, h1, h2⟩ :=
        ih { fs with files := fs.files ++ [((fs.cwd, imName x), x)] }
      refine ⟨((fs.cwd, imName x), x) :: new, ?_, ?_⟩
      · rw [h1]
        simp
      · intro f hf
        rcases List.mem_cons.mp hf with hfe | hfn
        · subst hfe
          refine ⟨rfl, ⟨x, List.mem_cons_self x xs, rfl⟩, ?_⟩
          intro c hc
          exact hp (List.any_eq_true.mpr ⟨_, hc, by simp⟩)
        · obtain ⟨hcwd, ⟨y, hy, hyn⟩, hnot⟩ := h2 f hfn
          refine ⟨hcwd, ⟨y, List.mem_cons_of_mem x hy, hyn⟩, ?_⟩
          intro c hc
          exact hnot c (List.mem_append_left _ hc)

/-- Helper: files present before the save loop are still present after. -/
theorem saveAll_mono (ts : List String) (fs : FS)
    (f : (List String × String) × String) (hf : f ∈ fs.files) :
    f ∈ (saveAllTemplateImages ts fs).files := by
  obtain ⟨new, h1, -⟩ := saveAll_spec ts fs
  rw [h1]
  exact List.mem_append_left _ hf

/-- Helper: after the save loop, every listed template's image exists in
the working directory. -/
theorem saveAll_mem (ts : List String) (fs : FS) (x : String) (hx : x ∈ ts) :
    ∃ c, ((fs.cwd, imName x), c) ∈ (saveAllTemplateImages ts fs).files := by
  induction ts generalizing fs with
  | nil => cases hx
  | cons y ys ih =>
    show ∃ c, _ ∈ (saveAllTemplateImages ys (saveStep fs y)).files
    rcases List.mem_cons.mp hx with h | h
    · subst h
      have hpres : ∃ c, ((fs.cwd, imName x), c) ∈ (saveStep fs x).files := by
        by_cases hp : fs.files.any (fun f => f.1 = (fs.cwd, imName x)) = true
        · obtain ⟨f, hf, hfe⟩ := List.any_eq_true.mp hp
          have hfe2 : f.1 = (fs.cwd, imName x) := by simpa using hfe
          refine ⟨f.2, ?_⟩
          have : saveStep fs x = fs := by simp [saveStep, hp]
          rw [this, ← hfe2]
          exact hf
        · have hstep : saveStep fs x =
              { fs with files := fs.files ++ [((fs.cwd, imName x), x)] } := by
            simp only [saveStep]
            rw [if_neg (by simpa using hp)]
          exact ⟨x, by rw [hstep]; simp⟩
      obtain ⟨c, hc⟩ := hpres
      exact ⟨c, saveAll_mono ys (saveStep fs x) _ hc⟩
    · have := ih (saveStep fs y) h
      rwa [saveStep_cwd] at this

/-- Helper: when every listed template's image already exists in the
working directory, the save loop writes nothing at all. -/
theorem saveAll_stable (ts : List String) (fs : FS)
    (h : ∀ x ∈ ts, ∃ f ∈ fs.files, f.1 = (fs.cwd, imName x)) :
    saveAllTemplateImages ts fs = fs := by
  induction ts with
  | nil => rfl
  | cons x xs ih =>
    have hstep : saveStep fs x = fs := by
      obtain ⟨f, hf, hfe⟩ := h x (List.mem_cons_self x xs)
      have : fs.files.any (fun f => f.1 = (fs.cwd, imName x)) = true :=
        List.any_eq_true.mpr ⟨f, hf, by simp [hfe]⟩
      simp [saveStep, this]
    show saveAllTemplateImages xs (saveStep fs x) = fs
    rw [hstep]
    exact ih (fun y hy => h y (List.mem_cons_of_mem x hy))

/-- Helper: running the save loop twice equals running it once. -/
theorem saveAll_idem (ts : List String) (fs : FS) :
    saveAllTemplateImages ts (saveAllTemplateImages ts fs) =
      saveAllTemplateImages ts fs := by
  refine saveAll_stable ts _ (fun x hx => ?_)
  obtain ⟨c, hc⟩ := saveAll_mem ts fs x hx
  refine ⟨((fs.cwd, imName x), c), hc, ?_⟩
  rw [saveAll_cwd]

/-- C9: `saveAllTemplateImages` writes `im_template_<template>.png` only
when that file does not already exist: existing files are all retained
with their contents, every written file's key was absent beforehand, and
running the function a second time changes nothing. -/
theorem C9_idempotent_no_overwrite (templates : List String) (fs : FS) :
    (∃ new, (saveAllTemplateImages templates fs).files = fs.files ++ new ∧
       ∀ f ∈ new, ∀ c, (f.1, c) ∉ fs.files) ∧
    saveAllTemplateImages templates (saveAllTemplateImages templates fs) =
      saveAllTemplateImages templates fs := by
  constructor
  · obtain ⟨new, h1, h2⟩ := saveAll_spec templates fs
    exact ⟨new, h1, fun f hf => (h2 f hf).2.2⟩
  · exact saveAll_idem templates fs

/-- Witness for C9: a concrete second run writes nothing, and the first
run wrote exactly the one missing image. -/
theorem C9_witness :
    saveAllTemplateImages ["opal"] (saveAllTemplateImages ["opal"] fs0) =
      saveAllTemplateImages ["opal"] fs0 ∧
    (saveAllTemplateImages ["opal"] fs0).files =
      fs0.files ++ [((["home"], "im_template_opal.png"), "opal")] :=
  ⟨(C9_idempotent_no_overwrite ["opal"] fs0).2, by decide⟩

/-- Helper: resolving a concatenation resolves the parts in order. -/
theorem resolveRel_append (b p q : List String) :
    resolveRel b (p ++ q) = resolveRel (resolveRel b p) q :=
  List.foldl_append _ _ _ _

/-- Helper: resolving a path without up-components just appends it. -/
theorem resolveRel_noUps (b s : List String) (hs : ".." ∉ s) :
    resolveRel b s = b ++ s := by
  induction s generalizing b with
  | nil => simp [resolveRel]
  | cons c cs ih =>
    have hc : ¬(c = "..") := fun h => hs (h ▸ List.mem_cons_self c cs)
    show List.foldl _ _ (c :: cs) = _
    rw [List.foldl_cons]
    have : (if c = ".." then b.dropLast else b ++ [c]) = b ++ [c] := if_neg hc
    rw [this]
    have ih2 := ih (b ++ [c]) (fun h => hs (List.mem_cons_of_mem c h))
    rw [show List.foldl (fun acc c => if c = ".." then acc.dropLast else acc ++ [c])
        (b ++ [c]) cs = resolveRel (b ++ [c]) cs from rfl, ih2]
    simp

/-- Helper: as many up-components as the base has components resolve to
the root. -/
theorem resolveRel_ups_len (b : List String) :
    resolveRel b (List.replicate b.length "..") = [] := by
  induction b using List.reverseRecOn with
  | nil => rfl
  | append_singleton bs a ih =>
    rw [List.length_append, List.length_cons, List.length_nil]
    show resolveRel (bs ++ [a]) (List.replicate (bs.length + 1) "..") = []
    rw [List.replicate_succ]
    show resolveRel ((bs ++ [a]).dropLast) (List.replicate bs.length "..") = []
    rw [List.dropLast_concat]
    exact ih

/-- Helper: up-components bounded by the tail's length never pop the
head of the base. -/
theorem resolveRel_cons_ups (a : String) (b : List String) (k : ℕ)
    (hk : k ≤ b.length) (s : List String) (hs : ".." ∉ s) :
    resolveRel (a :: b) (List.replicate k ".." ++ s) =
      a :: resolveRel b (List.replicate k ".." ++ s) := by
  induction k generalizing b with
  | zero =>
    rw [List.replicate_zero, List.nil_append]
    rw [resolveRel_noUps _ _ hs, resolveRel_noUps _ _ hs]
    rfl
  | succ k ih =>
    cases b with
    | nil => exact absurd hk (by simp)
    | cons y ys =>
      rw [List.replicate_succ, List.cons_append]
      show resolveRel ((a :: y :: ys).dropLast) (List.replicate k ".." ++ s) =
        a :: resolveRel ((y :: ys).dropLast) (List.replicate k ".." ++ s)
      show resolveRel (a :: (y :: ys).dropLast) (List.replicate k ".." ++ s) =
        a :: resolveRel ((y :: ys).dropLast) (List.replicate k ".." ++ s)
      have hk2 : k ≤ ((y :: ys).dropLast).length := by
        have h1 : k + 1 ≤ ys.length + 1 := by simpa using hk
        simpa [List.length_dropLast] using Nat.le_of_succ_le_succ h1
      exact ih ((y :: ys).dropLast) hk2

/-- Helper: the shape of a relative path: some up-components, at most as
many as the base has, followed by down-components. -/
theorem relpath_shape (t b : List String) (ht : ".." ∉ t) :
    ∃ k s, relpathComponents t b = List.replicate k ".." ++ s ∧
      k ≤ b.length ∧ ".." ∉ s := by
  induction b generalizing t with
  | nil =>
    refine ⟨0, t, ?_, Nat.zero_le _, ht⟩
    cases t <;> rfl
  | cons y b' ih =>
    cases t with
    | nil =>
      refine ⟨(y :: b').length, [], by simp [relpathComponents], le_refl _, by simp⟩
    | cons x t' =>
      by_cases hxy : x = y
      · have ht' : ".." ∉ t' := fun h => ht (List.mem_cons_of_mem _ h)
        obtain ⟨k, s, h1, h2, h3⟩ := ih t' ht'
        refine ⟨k, s, ?_, Nat.le_succ_of_le h2, h3⟩
        show (if x = y then relpathComponents t' b'
          else List.replicate (b'.length + 1) ".." ++ (x :: t')) = _
        rw [if_pos hxy]
        exact h1
      · refine ⟨b'.length + 1, x :: t', ?_, by simp, ht⟩
        show (if x = y then relpathComponents t' b'
          else List.replicate (b'.length + 1) ".." ++ (x :: t')) = _
        rw [if_neg hxy]

/-- Helper: resolving the relative path of a target (free of
up-components) against the base lands exactly on the target. -/
theorem resolveRel_relpath (t b : List String) (ht : ".." ∉ t) :
    resolveRel b (relpathComponents t b) = t := by
  induction b generalizing t with
  | nil =>
    cases t with
    | nil => rfl
    | cons x t' =>
      show resolveRel [] (x :: t') = x :: t'
      rw [resolveRel_noUps _ _ ht]
      rfl
  | cons y b' ih =>
    cases t with
    | nil =>
      show resolveRel (y :: b') (List.replicate (y :: b').length "..") = []
      exact resolveRel_ups_len (y :: b')
    | cons x t' =>
      by_cases hxy : x = y
      · have ht' : ".." ∉ t' := fun h => ht (List.mem_cons_of_mem _ h)
        have heq : relpathComponents (x :: t') (y :: b') =
            relpathComponents t' b' := by
          show (if x = y then relpathComponents t' b'
            else List.replicate (b'.length + 1) ".." ++ (x :: t')) = _
          rw [if_pos hxy]
        rw [heq]
        obtain ⟨k, s, h1, h2, h3⟩ := relpath_shape t' b' ht'
        rw [h1, resolveRel_cons_ups y b' k h2 s h3, ← h1, ih t' ht', hxy]
      · have heq : relpathComponents (x :: t') (y :: b') =
            List.replicate (b'.length + 1) ".." ++ (x :: t') := by
          show (if x = y then relpathComponents t' b'
            else List.replicate (b'.length + 1) ".." ++ (x :: t')) = _
          rw [if_neg hxy]
        rw [heq, resolveRel_append]
        have hz : resolveRel (y :: b') (List.replicate (b'.length + 1) "..") = [] := by
          have := resolveRel_ups_len (y :: b')
          simpa using this
        rw [hz, resolveRel_noUps _ _ ht]
        rfl

/-- Helper: when the base is not inside the script file's path, the
relative path of the file is the relative path of its directory followed
by the filename. -/
theorem relpath_append_file (s : List String) (f : String) (c : List String)
    (hpre : ∀ rest, c ≠ (s ++ [f]) ++ rest) :
    relpathComponents (s ++ [f]) c = relpathComponents s c ++ [f] := by
  induction c generalizing s with
  | nil => cases s <;> rfl
  | cons y c' ih =>
    cases s with
    | nil =>
      have hfy : ¬(f = y) := by
        intro h
        exact hpre c' (by simp [h])
      have h1 : relpathComponents ([] ++ [f]) (y :: c') =
          List.replicate (c'.length + 1) ".." ++ [f] := by
        show (if f = y then relpathComponents [] c'
          else List.replicate (c'.length + 1) ".." ++ (f :: [])) = _
        rw [if_neg hfy]
      rw [h1]
      rfl
    | cons x s' =>
      by_cases hxy : x = y
      · have hpre2 : ∀ rest, c' ≠ (s' ++ [f]) ++ rest := by
          intro rest h
          exact hpre rest (by simp [hxy, h])
        have e1 : relpathComponents ((x :: s') ++ [f]) (y :: c') =
            relpathComponents (s' ++ [f]) c' := by
          show (if x = y then relpathComponents (s' ++ [f]) c'
            else List.replicate (c'.length + 1) ".." ++ (x :: (s' ++ [f]))) = _
          rw [if_pos hxy]
        have e2 : relpathComponents (x :: s') (y :: c') =
            relpathComponents s' c' := by
          show (if x = y then relpathComponents s' c'
            else List.replicate (c'.length + 1) ".." ++ (x :: s')) = _
          rw [if_pos hxy]
        rw [e1, e2]
        exact ih s' hpre2
      · have e1 : relpathComponents ((x :: s') ++ [f]) (y :: c') =
            List.replicate (c'.length + 1) ".." ++ (x :: (s' ++ [f])) := by
          show (if x = y then relpathComponents (s' ++ [f]) c'
            else List.replicate (c'.length + 1) ".." ++ (x :: (s' ++ [f]))) = _
          rw [if_neg hxy]
        have e2 : relpathComponents (x :: s') (y :: c') =
            List.replicate (c'.length + 1) ".." ++ (x :: s') := by
          show (if x = y then relpathComponents s' c'
            else List.replicate (c'.length + 1) ".." ++ (x :: s')) = _
          rw [if_neg hxy]
        rw [e1, e2]
        simp

/-- C5: when importing `saveTemplateImages.py` completes normally (for a
script directory free of `".."` components and a working directory not
lying inside the script file's path), the process's working directory
afterwards equals its value from before the import, each template's
image `im_template_<template>.png` exists in the directory containing
the script, and every file the import created lies in that directory
(none in the caller's) and is named after a template. -/
theorem C5_module_import (templates scriptDir : List String) (fname : String)
    (fs fs' : FS) (hdots : ".." ∉ scriptDir)
    (hpre : ∀ rest, fs.cwd ≠ (scriptDir ++ [fname]) ++ rest)
    (hrun : runSaveTemplateImagesModule templates (scriptDir ++ [fname]) fs =
      .ok fs') :
    fs'.cwd = fs.cwd ∧
    (∀ x ∈ templates, ∃ c, ((scriptDir, imName x), c) ∈ fs'.files) ∧
    (∃ newFiles, fs'.files = fs.files ++ newFiles ∧
       ∀ f ∈ newFiles, f.1.1 = scriptDir ∧ ∃ x ∈ templates, f.1.2 = imName x) := by
  unfold runSaveTemplateImagesModule at hrun
  have hdir : getImageDirectory (scriptDir ++ [fname]) fs.cwd =
      relpathComponents scriptDir fs.cwd := by
    unfold getImageDirectory
    rw [relpath_append_file scriptDir fname fs.cwd hpre]
    exact List.dropLast_concat
  rw [hdir] at hrun
  have hres : resolveRel fs.cwd (relpathComponents scriptDir fs.cwd) =
      scriptDir := resolveRel_relpath scriptDir fs.cwd hdots
  by_cases hnil : relpathComponents scriptDir fs.cwd = []
  · simp [chdirRel, hnil] at hrun
  · simp only [chdirRel, hnil, if_false, ite_false, reduceIte] at hrun
    have hfs' := Except.ok.inj hrun
    rw [hres] at hfs'
    subst hfs'
    refine ⟨rfl, ?_, ?_⟩
    · intro x hx
      have hm := saveAll_mem templates { fs with cwd := scriptDir } x hx
      simpa using hm
    · obtain ⟨new, h1, h2⟩ := saveAll_spec templates { fs with cwd := scriptDir }
      refine ⟨new, by simpa using h1, ?_⟩
      intro f hf
      obtain ⟨hcwd, hname, -⟩ := h2 f hf
      exact ⟨hcwd, hname⟩

/-- Witness for C5: a concrete import from `/home` of a script in
`/repo/Templates` with one template. -/
theorem C5_witness :
    (⟨["home"], [(((["repo", "Templates"] : List String),
        "im_template_opal.png"), "opal")]⟩ : FS).cwd = fs0.cwd ∧
    (∀ x ∈ ["opal"], ∃ c, (((["repo", "Templates"] : List String), imName x), c) ∈
      (⟨["home"], [(((["repo", "Templates"] : List String),
        "im_template_opal.png"), "opal")]⟩ : FS).files) ∧
    (∃ newFiles,
      (⟨["home"], [(((["repo", "Templates"] : List String),
        "im_template_opal.png"), "opal")]⟩ : FS).files = fs0.files ++ newFiles ∧
      ∀ f ∈ newFiles, f.1.1 = ["repo", "Templates"] ∧
        ∃ x ∈ ["opal"], f.1.2 = imName x) :=
  C5_module_import ["opal"] ["repo", "Templates"] "f.py" fs0
    ⟨["home"], [(((["repo", "Templates"] : List String),
      "im_template_opal.png"), "opal")]⟩
    (by decide)
    (by
      intro rest h
      exact absurd (List.cons.inj h).1 (by decide))
    (by decide)

/-- Helper: `RSelect` appends exactly one region, ordered in both
coordinates. -/
theorem RSelect_roi (w : SpectrogramWidget) (e1 e2 : ℚ × ℚ) :
    ∃ rnew, (RSelect w e1 e2).roi = w.roi ++ [rnew] ∧
      rnew.time.1 ≤ rnew.time.2 ∧ rnew.velocity.1 ≤ rnew.velocity.2 := by
  unfold RSelect
  refine ⟨_, rfl, ?_, ?_⟩
  · dsimp only
    split
    · exact le_of_lt (by assumption)
    · exact le_of_not_lt (by assumption)
  · dsimp only
    split
    · exact le_of_lt (by assumption)
    · exact le_of_not_lt (by assumption)

/-- Helper: the `clear_spectra` loop never touches `self.roi`. -/
theorem clearSpectraLoop_roi (l : List SpecEntry) (w : SpectrogramWidget) :
    (clearSpectraLoop w l).1.roi = w.roi := by
  induction l generalizing w with
  | nil => rfl
  | cons x rest ih =>
    simp only [clearSpectraLoop]
    split
    · rfl
    · split
      · rfl
      · exact ih _

/-- Helper: `clear_spectra` never touches `self.roi`. -/
theorem clear_spectra_roi (w : SpectrogramWidget) :
    (clear_spectra w).1.roi = w.roi :=
  clearSpectraLoop_roi w.spectra w

/-- Helper: the `clear_followers` loop never touches `self.roi`. -/
theorem clearFollowersLoop_roi (l : List PeakFollowerObj)
    (w : SpectrogramWidget) : (clearFollowersLoop w l).1.roi = w.roi := by
  induction l generalizing w with
  | nil => rfl
  | cons x rest ih =>
    simp only [clearFollowersLoop]
    split
    · rfl
    · split
      · rfl
      · exact ih _

/-- Helper: `clear_followers` never touches `self.roi`. -/
theorem clear_followers_roi (w : SpectrogramWidget) :
    (clear_followers w).1.roi = w.roi :=
  clearFollowersLoop_roi w.peak_followers w

/-- Helper: `follow` never touches `self.roi`. -/
theorem follow_roi (E : Externals) (w : SpectrogramWidget) (t : ℚ)
    (v : Option ℚ) (a : String) : (follow E w t v a).1.roi = w.roi := by
  unfold follow
  repeat' split
  all_goals rfl

/-- Helper: `analyze_roi` only reads `self.roi`. -/
theorem analyze_roi_roi (w : SpectrogramWidget) :
    (analyze_roi w).1.roi = w.roi := by
  unfold analyze_roi
  split <;> rfl

/-- Helper: `gauss_out` never touches `self.roi`. -/
theorem gauss_out_roi (E : Externals) (w : SpectrogramWidget) (n : ℕ) :
    (gauss_out E w n).1.roi = w.roi := by
  simp only [gauss_out]
  repeat' split
  all_goals rfl

/-- Helper: `fan_out` never touches `self.roi`. -/
theorem fan_out_roi (E : Externals) (w : SpectrogramWidget) (n : ℕ) :
    (fan_out E w n).1.roi = w.roi := by
  simp only [fan_out]
  repeat' split
  all_goals rfl

/-- Helper: `spectrumBuild` never touches `self.roi`. -/
theorem spectrumBuild_roi (E : Externals) (w : SpectrogramWidget) (t : ℚ)
    (form : String) (specMax spec90 : ℚ) (color : String) :
    (spectrumBuild E w t form specMax spec90 color).roi = w.roi := by
  simp only [spectrumBuild]
  repeat' split
  all_goals rfl

/-- Helper: `spectrum` never touches `self.roi`. -/
theorem spectrum_roi (E : Externals) (w : SpectrogramWidget)
    (the_time : Option ℚ) (form : String) :
    (SpectrogramWidget.spectrum E w the_time form).1.roi = w.roi := by
  unfold SpectrogramWidget.spectrum
  repeat' split
  all_goals first | rfl | exact spectrumBuild_roi _ _ _ _ _ _ _

/-- Helper: the concrete click handler never touches `self.roi`. -/
theorem handleClickConcrete_roi (E : Externals) (w : SpectrogramWidget)
    (ev : ClickEvent) : (handleClickConcrete E w ev).1.roi = w.roi := by
  simp only [handleClickConcrete, handle_click]
  repeat' split
  all_goals
    first
    | rfl
    | exact spectrum_roi _ _ _ _
    | exact follow_roi _ _ _ _ _

/-- Helper: the 'a'/'A' key step never writes `self.roi`. -/
theorem handleKeyROI_roi (w : SpectrogramWidget) (c : String) :
    (handleKeyROI w c).1.roi = w.roi := by
  unfold handleKeyROI
  split
  · exact analyze_roi_roi w
  · rfl

/-- Helper: the 'x' key step never touches `self.roi`. -/
theorem handleKeyX_roi (w : SpectrogramWidget) (char : Option String) :
    (handleKeyX w char).1.roi = w.roi := by
  unfold handleKeyX
  split
  · exact clear_spectra_roi w
  · rfl

/-- Helper: the marquee key step never touches `self.roi`. -/
theorem handleKeyMarquee_roi (w : SpectrogramWidget) (char : Option String) :
    (handleKeyMarquee w char).roi = w.roi := by
  unfold handleKeyMarquee
  split <;> rfl

/-- Helper: the digit and 'a'/'A' key steps never write `self.roi`. -/
theorem handleKeyDigits_roi (E : Externals) (w : SpectrogramWidget)
    (char : Option String) : (handleKeyDigits E w char).1.roi = w.roi := by
  cases char with
  | none => rfl
  | some c =>
    simp only [handleKeyDigits]
    by_cases hd : strContains "0123456789" c = true
    · rw [if_pos hd]
      cases hpi : pyIntOfString c with
      | error e => rfl
      | ok n =>
        dsimp only
        rcases hg : gauss_out E w n with ⟨w3, r3⟩
        have hw3 : w3.roi = w.roi := by
          have := gauss_out_roi E w n
          rw [hg] at this
          exact this
        cases r3 with
        | error e => exact hw3
        | ok u => exact (handleKeyROI_roi w3 c).trans hw3
    · rw [if_neg hd]
      exact handleKeyROI_roi w c

/-- Helper: `handle_key` never writes `self.roi`. -/
theorem handle_key_roi (E : Externals) (w : SpectrogramWidget)
    (ev : KeyEvent) : (handle_key E w ev).1.roi = w.roi := by
  simp only [handle_key]
  rcases hx : handleKeyX w ev.key with ⟨w1, r1⟩
  have hw1 : w1.roi = w.roi := by
    have := handleKeyX_roi w ev.key
    rw [hx] at this
    exact this
  cases r1 with
  | error e => exact hw1
  | ok u =>
    exact (handleKeyDigits_roi E _ ev.key).trans
      ((handleKeyMarquee_roi w1 ev.key).trans hw1)

/-- Helper: every modelled widget transition preserves the ROI ordering
invariant. -/
theorem widgetStep_roiOrdered (E : Externals) (w w' : SpectrogramWidget)
    (hs : WidgetStep E w w') (h : roiOrdered w) : roiOrdered w' := by
  cases hs with
  | rselect e1 e2 =>
    obtain ⟨rnew, hroi, ht, hv⟩ := RSelect_roi w e1 e2
    intro r hr
    rw [hroi] at hr
    rcases List.mem_append.mp hr with h1 | h2
    · exact h r h1
    · have := List.mem_singleton.mp h2
      subst this
      exact ⟨ht, hv⟩
  | key ev =>
    intro r hr
    rw [handle_key_roi] at hr
    exact h r hr
  | click ev =>
    intro r hr
    rw [handleClickConcrete_roi] at hr
    exact h r hr
  | clearSpectraBtn =>
    intro r hr
    rw [clear_spectra_roi] at hr
    exact h r hr
  | clearFollowersBtn =>
    intro r hr
    rw [clear_followers_roi] at hr
    exact h r hr
  | gaussOut n =>
    intro r hr
    rw [gauss_out_roi] at hr
    exact h r hr
  | fanOut n =>
    intro r hr
    rw [fan_out_roi] at hr
    exact h r hr
  | spectrumCall t form =>
    intro r hr
    rw [spectrum_roi] at hr
    exact h r hr
  | followCall t v a =>
    intro r hr
    rw [follow_roi] at hr
    exact h r hr
  | analyzeRoi =>
    intro r hr
    rw [analyze_roi_roi] at hr
    exact h r hr

/-- C7: `RSelect` appends, to `self.roi`, exactly one region whose time
pair and velocity pair are in nondecreasing order regardless of drag
direction, never removing or reordering existing entries; consequently,
along any sequence of modelled widget transitions from a state whose ROI
list satisfies the ordering invariant (in particular the initial state
with an empty list), every element of `self.roi` satisfies it at all
times. -/
theorem C7_rselect_roi_invariant (E : Externals) :
    (∀ (w : SpectrogramWidget) (e1 e2 : ℚ × ℚ),
      ∃ rnew, (RSelect w e1 e2).roi = w.roi ++ [rnew] ∧
        rnew.time.1 ≤ rnew.time.2 ∧ rnew.velocity.1 ≤ rnew.velocity.2) ∧
    (∀ w0 w : SpectrogramWidget, roiOrdered w0 →
      Relation.ReflTransGen (WidgetStep E) w0 w → roiOrdered w) := by
  refine ⟨RSelect_roi, fun w0 w h0 hreach => ?_⟩
  induction hreach with
  | refl => exact h0
  | tail hsteps hstep ih => exact widgetStep_roiOrdered E _ _ hstep ih

/-- Witness for C7: the state reached from the freshly initialized
widget by one backwards marquee drag satisfies the invariant. -/
theorem C7_witness : roiOrdered (RSelect W0 (3, 7) (1, 2)) :=
  (C7_rselect_roi_invariant E0).2 W0 (RSelect W0 (3, 7) (1, 2))
    (by intro r hr; simp [W0] at hr)
    (Relation.ReflTransGen.single (WidgetStep.rselect W0 (3, 7) (1, 2)))
